import Mathlib

/-!
Verification of the WS2818 RGB LED SPI driver.

The timing constants and the SPI write adapter are embedded from
`src/timings.rs` and `src/adapter_spi.rs`.  The frame encoder
(`encodeByte`, `encodeColor`, `encodeStrip`) lives in the crate's
`encoding.rs`, which is not part of the provided sources; those
operations are modelled from the specification.
-/

/- ### Constants from `src/timings.rs` -/

/-- Source constant `PI_SPI_HZ : u32 = 15_600_000`. -/
def PI_SPI_HZ : Nat := 15600000

/-- Source constant `PI_SPI_NS_PER_BIT : u32 = 64`. -/
def PI_SPI_NS_PER_BIT : Nat := 64

/-- Source constant `TRESET_NS : u64 = 300_000`. -/
def TRESET_NS : Nat := 300000

/-- Source constant `TRESET_BITS : u64 = TRESET_NS / (PI_SPI_NS_PER_BIT as u64) + 1`.
Rust `/` on unsigned integers truncates (floor division), exactly as `Nat` division. -/
def TRESET_BITS : Nat := TRESET_NS / PI_SPI_NS_PER_BIT + 1

/-- Source constant `SPI_BYTES_PER_DATA_BIT : usize = 2` from module `encoding`. -/
def SPI_BYTES_PER_DATA_BIT : Nat := 2

/-- Source constant `WS2812_LOGICAL_ZERO_BYTES = [0b1111_1000, 0b0000_0000]`. -/
def WS2812_LOGICAL_ZERO_BYTES : List Nat := [0xF8, 0x00]

/-- Source constant `WS2813_LOGICAL_ZERO_BYTES = [0b1111_0000, 0b0000_0000]`. -/
def WS2813_LOGICAL_ZERO_BYTES : List Nat := [0xF0, 0x00]

/-- Source constant `WS2812_LOGICAL_ONE_BYTES = [0b1111_1111, 0b1000_0000]`. -/
def WS2812_LOGICAL_ONE_BYTES : List Nat := [0xFF, 0x80]

/-- Source constant `WS2813_LOGICAL_ONE_BYTES = [0b1111_1111, 0b1100_0000]`. -/
def WS2813_LOGICAL_ONE_BYTES : List Nat := [0xFF, 0xC0]

/- ### Data model -/

/-- Modelled from the spec: a `TimingTable` gives `bytes_per_data_bit`,
the `zero_pattern` and `one_pattern` byte sequences (each a fixed-length
sequence of length `bytes_per_data_bit`, matching the Rust type
`[u8; SPI_BYTES_PER_DATA_BIT]`), and the derived `reset_byte_count`.
Pattern bytes are 8-bit values represented as `Nat`. -/
structure TimingTable where
  bytesPerDataBit : Nat
  zeroPattern : List Nat
  onePattern : List Nat
  resetByteCount : Nat
  zeroPattern_length : zeroPattern.length = bytesPerDataBit
  onePattern_length : onePattern.length = bytesPerDataBit

/-- Modelled from the spec: a `Color` is three 8-bit channel values. -/
structure Color where
  red : Nat
  green : Nat
  blue : Nat

/-- The concrete timing table of the WS2812 variant, from the constants
in `src/timings.rs`. -/
def ws2812Table : TimingTable where
  bytesPerDataBit := SPI_BYTES_PER_DATA_BIT
  zeroPattern := WS2812_LOGICAL_ZERO_BYTES
  onePattern := WS2812_LOGICAL_ONE_BYTES
  resetByteCount := TRESET_BITS
  zeroPattern_length := rfl
  onePattern_length := rfl

/-- The concrete timing table of the WS2813 variant, from the constants
in `src/timings.rs`. -/
def ws2813Table : TimingTable where
  bytesPerDataBit := SPI_BYTES_PER_DATA_BIT
  zeroPattern := WS2813_LOGICAL_ZERO_BYTES
  onePattern := WS2813_LOGICAL_ONE_BYTES
  resetByteCount := TRESET_BITS
  zeroPattern_length := rfl
  onePattern_length := rfl

/- ### The frame encoder, modelled from the spec -/

/-- The 8 bits of a byte, most-significant first. -/
def byteBitsMSB (b : Nat) : List Bool :=
  [b.testBit 7, b.testBit 6, b.testBit 5, b.testBit 4,
   b.testBit 3, b.testBit 2, b.testBit 1, b.testBit 0]

/-- Modelled from the spec: `encodeByte(table, byte)` — the crate's
`encoding.rs` is not among the provided sources.  For each of the 8 bits
of `byte`, most-significant first, emit `table.one_pattern` if the bit
is 1, else `table.zero_pattern`, concatenated in bit order. -/
def encodeByte (t : TimingTable) (b : Nat) : List Nat :=
  ((byteBitsMSB b).map (fun bit => if bit then t.onePattern else t.zeroPattern)).flatten

/-- Modelled from the spec: `encodeColor(table, color)` — the crate's
`encoding.rs` is not among the provided sources.  Concatenates
`encodeByte` for each channel in the fixed transmission order of the
variant; the spec leaves the exact channel order open, so the red,
green, blue order of the data model is used here. -/
def encodeColor (t : TimingTable) (c : Color) : List Nat :=
  encodeByte t c.red ++ encodeByte t c.green ++ encodeByte t c.blue

/-- Modelled from the spec: `encodeStrip(table, colors)` — the crate's
`encoding.rs` is not among the provided sources.  Concatenates
`encodeColor` for each pixel in strip order, then appends
`reset_byte_count` zero bytes. -/
def encodeStrip (t : TimingTable) (colors : List Color) : List Nat :=
  ((colors.map (encodeColor t)).flatten) ++ List.replicate t.resetByteCount 0

/- ### SPI adapter from `src/adapter_spi.rs` -/

/-- The error message built by `SpiHwAdapterDev::write_all` in
`src/adapter_spi.rs` when the underlying `Spidev::write_all` fails,
with the attempted byte count interpolated.  The Rust string uses a
line-continuation backslash, so no space separates "small!" and
"Check". -/
def spiWriteErrorMsg (n : Nat) : String :=
  "Failed to send " ++ toString n ++
    " bytes via SPI. Perhaps your SPI buffer is too small!Check https://www.raspberrypi.org/forums/viewtopic.php?p=309582#p309582 for example."

/-- Embedding of `SpiHwAdapterDev::write_all` from `src/adapter_spi.rs`.
The underlying device is modelled as a stream of per-attempt outcomes
(`attempts k` is the outcome of the `k`-th underlying `Spidev` write).
The function performs the single underlying attempt `attempts 0`, maps
any error to the formatted message, and also returns how many underlying
attempts it consumed. -/
def hwWriteAll (attempts : Nat → Except Unit Unit) (encodedData : List Nat) :
    Except String Unit × Nat :=
  match attempts 0 with
  | Except.ok _ => (Except.ok (), 1)
  | Except.error _ => (Except.error (spiWriteErrorMsg encodedData.length), 1)

/- ### Bit-level helpers for the timing invariants -/

/-- Number of set bits among the 8 low bits of a byte value. -/
def bitCount8 (b : Nat) : Nat :=
  (byteBitsMSB b).countP (fun x => x)

/-- Total number of set bits in a byte pattern (its cumulative high time
at the fixed clock is this count times the bit period). -/
def patternHighBits (p : List Nat) : Nat :=
  (p.map bitCount8).sum

/-- All bits of a byte pattern in wire order: each byte most-significant
bit first, bytes in sequence order. -/
def patternBits (p : List Nat) : List Bool :=
  (p.map byteBitsMSB).flatten

/-- Decides whether a bit sequence is a non-empty run of 1-bits followed
by a non-empty run of 0-bits (a single high pulse starting at the
boundary, line low at the end). -/
def isHighRunThenLowRun (bs : List Bool) : Bool :=
  !(bs.takeWhile (fun x => x)).isEmpty &&
    !(bs.dropWhile (fun x => x)).isEmpty &&
    (bs.dropWhile (fun x => x)).all (fun x => !x)

/-- Interprets a bit list (most-significant first) as a natural number;
left inverse of `byteBitsMSB` on byte values. -/
def bitsToNat (bs : List Bool) : Nat :=
  bs.foldl (fun acc bit => 2 * acc + (if bit then 1 else 0)) 0

/- ### Helper lemmas -/

lemma encodeByte_len (t : TimingTable) (b : Nat) :
    (encodeByte t b).length = 8 * t.bytesPerDataBit := by
  simp only [encodeByte, byteBitsMSB, List.map_cons, List.map_nil, List.flatten_cons,
    List.flatten_nil, List.length_append, List.length_nil, apply_ite List.length,
    t.zeroPattern_length, t.onePattern_length, ite_self]
  omega

lemma encodeColor_len (t : TimingTable) (c : Color) :
    (encodeColor t c).length = 24 * t.bytesPerDataBit := by
  simp only [encodeColor, List.length_append, encodeByte_len]
  omega

set_option maxRecDepth 8000 in
lemma bitsToNat_byteBitsMSB_fin : ∀ x : Fin 256, bitsToNat (byteBitsMSB x.val) = x.val := by
  decide

lemma byteBitsMSB_inj (b1 b2 : Nat) (h1 : b1 < 256) (h2 : b2 < 256)
    (h : byteBitsMSB b1 = byteBitsMSB b2) : b1 = b2 := by
  have e1 : bitsToNat (byteBitsMSB b1) = b1 := bitsToNat_byteBitsMSB_fin ⟨b1, h1⟩
  have e2 : bitsToNat (byteBitsMSB b2) = b2 := bitsToNat_byteBitsMSB_fin ⟨b2, h2⟩
  rw [← e1, ← e2, h]

lemma flatten_map_pattern_inj (t : TimingTable) (hne : t.zeroPattern ≠ t.onePattern) :
    ∀ bs1 bs2 : List Bool, bs1.length = bs2.length →
      (bs1.map (fun bit => if bit then t.onePattern else t.zeroPattern)).flatten =
        (bs2.map (fun bit => if bit then t.onePattern else t.zeroPattern)).flatten →
      bs1 = bs2 := by
  intro bs1
  induction bs1 with
  | nil =>
    intro bs2 hlen _
    cases bs2 with
    | nil => rfl
    | cons b m => simp at hlen
  | cons a l ih =>
    intro bs2 hlen heq
    cases bs2 with
    | nil => simp at hlen
    | cons b m =>
      simp only [List.map_cons, List.flatten_cons] at heq
      have hpl : (if a then t.onePattern else t.zeroPattern).length =
          (if b then t.onePattern else t.zeroPattern).length := by
        cases a <;> cases b <;>
          simp [t.zeroPattern_length, t.onePattern_length]
      obtain ⟨hhead, htail⟩ := List.append_inj heq hpl
      have hab : a = b := by
        cases a <;> cases b <;> first
          | rfl
          | (exact absurd hhead.symm hne)
          | (exact absurd hhead hne)
      subst hab
      have hlm : l = m := ih m (by simpa using hlen) htail
      rw [hlm]

/- ### Claim theorems -/

/-- C1 counterexample: the code computes `TRESET_BITS` with truncating
division plus one, which yields 4688, not the claimed
`ceil(300000/64) + 1 = 4689`. -/
theorem treset_bits_ne_ceil_plus_one :
    TRESET_BITS ≠ (TRESET_NS + PI_SPI_NS_PER_BIT - 1) / PI_SPI_NS_PER_BIT + 1 ∧
    TRESET_BITS ≠ 4689 := by
  decide

/-- C1 (amended): `TRESET_BITS` is the floor of `TRESET_NS / 64` plus one,
which equals 4688; it never falls below the exact ceiling (so the padding
still covers at least the minimum reset duration: 4688 · 64 ≥ 300000). -/
theorem treset_bits_floor_plus_one :
    TRESET_BITS = TRESET_NS / PI_SPI_NS_PER_BIT + 1 ∧
    TRESET_BITS = 4688 ∧
    (TRESET_NS + PI_SPI_NS_PER_BIT - 1) / PI_SPI_NS_PER_BIT ≤ TRESET_BITS ∧
    TRESET_NS ≤ TRESET_BITS * PI_SPI_NS_PER_BIT := by
  decide

/-- C2 counterexample: with the table `bytes_per_data_bit = 2`,
`zero_pattern = [0xF8, 0x00]`, `one_pattern = [0xFF, 0x80]`, the byte
`0b1010_0000` does not encode to the claimed sequence, whose bit pattern
would be `1,1,0,1,0,0,0,0`. -/
theorem encodeByte_claimed_seq_wrong :
    encodeByte ws2812Table 0b10100000 ≠
      [0xFF, 0x80, 0xFF, 0x80, 0xF8, 0x00, 0xFF, 0x80,
       0xF8, 0x00, 0xF8, 0x00, 0xF8, 0x00, 0xF8, 0x00] := by
  decide

/-- C2 (amended): `0b1010_0000` most-significant bit first is
`1,0,1,0,0,0,0,0`, so the encoding is `one, zero, one, zero` followed by
four more `zero` patterns. -/
theorem encodeByte_10100000 :
    encodeByte ws2812Table 0b10100000 =
      [0xFF, 0x80, 0xF8, 0x00, 0xFF, 0x80, 0xF8, 0x00,
       0xF8, 0x00, 0xF8, 0x00, 0xF8, 0x00, 0xF8, 0x00] := by
  decide

/-- C3: `encodeByte` is a total function (it is defined on every `Nat`,
in particular on all 256 byte values) and its result always has length
`8 * bytes_per_data_bit`. -/
theorem encodeByte_total_length (t : TimingTable) (b : Nat) :
    (encodeByte t b).length = 8 * t.bytesPerDataBit :=
  encodeByte_len t b

/-- C4: `encodeByte` consumes bits most-significant first: `0x00` maps to
`zero_pattern` repeated 8 times, `0xFF` to `one_pattern` repeated 8 times,
and `0x80` (only the most significant bit set) begins with `one_pattern`. -/
theorem encodeByte_msb_first (t : TimingTable) :
    encodeByte t 0x00 = (List.replicate 8 t.zeroPattern).flatten ∧
    encodeByte t 0xFF = (List.replicate 8 t.onePattern).flatten ∧
    encodeByte t 0x80 = t.onePattern ++ (List.replicate 7 t.zeroPattern).flatten := by
  have h0 : byteBitsMSB 0x00 = List.replicate 8 false := by decide
  have h255 : byteBitsMSB 0xFF = List.replicate 8 true := by decide
  have h128 : byteBitsMSB 0x80 = true :: List.replicate 7 false := by decide
  refine ⟨?_, ?_, ?_⟩
  · simp [encodeByte, h0, List.map_replicate]
  · simp [encodeByte, h255, List.map_replicate]
  · simp [encodeByte, h128, List.map_replicate]

/-- C5: with distinct `zero_pattern` and `one_pattern`, `encodeByte` is
injective on byte values: distinct bytes encode to distinct sequences. -/
theorem encodeByte_injective (t : TimingTable) (hne : t.zeroPattern ≠ t.onePattern)
    (b1 b2 : Nat) (hb1 : b1 < 256) (hb2 : b2 < 256) (hne12 : b1 ≠ b2) :
    encodeByte t b1 ≠ encodeByte t b2 := by
  intro h
  apply hne12
  apply byteBitsMSB_inj b1 b2 hb1 hb2
  exact flatten_map_pattern_inj t hne _ _ rfl h

/-- C5 witness: the WS2812 table has distinct patterns and the bytes 0 and 1
encode differently. -/
theorem encodeByte_injective_witness :
    ws2812Table.zeroPattern ≠ ws2812Table.onePattern ∧
    encodeByte ws2812Table 0 ≠ encodeByte ws2812Table 1 :=
  ⟨by decide,
   encodeByte_injective ws2812Table (by decide) 0 1 (by decide) (by decide) (by decide)⟩

/-- C6: encoding the empty strip yields exactly `reset_byte_count` bytes,
all zero. -/
theorem encodeStrip_empty (t : TimingTable) :
    (encodeStrip t []).length = t.resetByteCount ∧
    ∀ x ∈ encodeStrip t [], x = 0 := by
  constructor
  · simp [encodeStrip]
  · intro x hx
    simp only [encodeStrip, List.map_nil, List.flatten_nil, List.nil_append] at hx
    exact List.eq_of_mem_replicate hx

/-- C7: a two-pixel strip encodes to `24 * 2 * bytes_per_data_bit`
payload bytes plus the reset padding, and the first
`24 * bytes_per_data_bit` bytes are the first pixel's encoding. -/
theorem encodeStrip_two_pixels (t : TimingTable) (c1 c2 : Color) :
    (encodeStrip t [c1, c2]).length = 24 * 2 * t.bytesPerDataBit + t.resetByteCount ∧
    (encodeStrip t [c1, c2]).take (24 * t.bytesPerDataBit) = encodeColor t c1 := by
  have hsplit : encodeStrip t [c1, c2] =
      encodeColor t c1 ++ (encodeColor t c2 ++ List.replicate t.resetByteCount 0) := by
    simp [encodeStrip]
  constructor
  · rw [hsplit]
    simp only [List.length_append, List.length_replicate, encodeColor_len]
    omega
  · rw [hsplit, ← encodeColor_len t c1, List.take_left]

/-- C9: when the single underlying SPI write fails, `write_all` returns an
error whose message contains the attempted byte count, it consumes exactly
one underlying attempt, and its result depends only on that first attempt
(no retry can observe a later outcome). -/
theorem hwWriteAll_error_reports_count (attempts : Nat → Except Unit Unit)
    (encodedData : List Nat) (hfail : attempts 0 = Except.error ()) :
    (hwWriteAll attempts encodedData).2 = 1 ∧
    (∃ pre post : String, (hwWriteAll attempts encodedData).1 =
      Except.error (pre ++ toString encodedData.length ++ post)) ∧
    (∀ attempts2 : Nat → Except Unit Unit, attempts2 0 = attempts 0 →
      hwWriteAll attempts2 encodedData = hwWriteAll attempts encodedData) := by
  refine ⟨?_, ?_, ?_⟩
  · simp [hwWriteAll, hfail]
  · refine ⟨"Failed to send ",
      " bytes via SPI. Perhaps your SPI buffer is too small!Check https://www.raspberrypi.org/forums/viewtopic.php?p=309582#p309582 for example.", ?_⟩
    simp [hwWriteAll, hfail, spiWriteErrorMsg]
  · intro attempts2 h2
    simp only [hwWriteAll, h2]

/-- C9 witness: a device whose write always fails, with a 3-byte buffer. -/
theorem hwWriteAll_error_reports_count_witness :
    (hwWriteAll (fun _ => Except.error ()) [7, 7, 7]).2 = 1 ∧
    (∃ pre post : String, (hwWriteAll (fun _ => Except.error ()) [7, 7, 7]).1 =
      Except.error (pre ++ toString ([7, 7, 7] : List Nat).length ++ post)) ∧
    (∀ attempts2 : Nat → Except Unit Unit,
      attempts2 0 = (fun _ => Except.error ()) 0 →
      hwWriteAll attempts2 [7, 7, 7] = hwWriteAll (fun _ => Except.error ()) [7, 7, 7]) :=
  hwWriteAll_error_reports_count (fun _ => Except.error ()) [7, 7, 7] rfl

/-- C8: for both variants, the one pattern has strictly more set bits than
the zero pattern, so at the fixed 64ns bit period its cumulative high time
is strictly larger. -/
theorem one_pattern_high_time_exceeds_zero :
    patternHighBits WS2812_LOGICAL_ONE_BYTES > patternHighBits WS2812_LOGICAL_ZERO_BYTES ∧
    patternHighBits WS2813_LOGICAL_ONE_BYTES > patternHighBits WS2813_LOGICAL_ZERO_BYTES ∧
    patternHighBits WS2812_LOGICAL_ONE_BYTES * PI_SPI_NS_PER_BIT >
      patternHighBits WS2812_LOGICAL_ZERO_BYTES * PI_SPI_NS_PER_BIT ∧
    patternHighBits WS2813_LOGICAL_ONE_BYTES * PI_SPI_NS_PER_BIT >
      patternHighBits WS2813_LOGICAL_ZERO_BYTES * PI_SPI_NS_PER_BIT := by
  decide

/-- C10: each of the four constant patterns has length
`SPI_BYTES_PER_DATA_BIT = 2`, and its 16 bits in wire order are a
non-empty run of 1-bits followed by a non-empty run of 0-bits. -/
theorem patterns_single_leading_pulse :
    WS2812_LOGICAL_ZERO_BYTES.length = SPI_BYTES_PER_DATA_BIT ∧
    WS2812_LOGICAL_ONE_BYTES.length = SPI_BYTES_PER_DATA_BIT ∧
    WS2813_LOGICAL_ZERO_BYTES.length = SPI_BYTES_PER_DATA_BIT ∧
    WS2813_LOGICAL_ONE_BYTES.length = SPI_BYTES_PER_DATA_BIT ∧
    isHighRunThenLowRun (patternBits WS2812_LOGICAL_ZERO_BYTES) = true ∧
    isHighRunThenLowRun (patternBits WS2812_LOGICAL_ONE_BYTES) = true ∧
    isHighRunThenLowRun (patternBits WS2813_LOGICAL_ZERO_BYTES) = true ∧
    isHighRunThenLowRun (patternBits WS2813_LOGICAL_ONE_BYTES) = true := by
  decide
